import Mathlib

set_option maxRecDepth 100000

/-!
# Verification of the `astro-docs` repository

The repository is a VuePress documentation site for the Astro Forms iOS
framework.  Its contents are four files: a root `README.md` with
development, deployment and testing instructions, the site source
`src/README.md` (home page) and `src/docs.md` (documentation page), and
the site generator configuration `src/.vuepress/config.js`.

This development embeds those contents: the configuration file as a
JavaScript-value tree, and each markdown file as its list of lines, and
proves the documented structural properties of the site.
-/

/-- A JavaScript value, as a JS source file such as `config.js` can contain
one: string, number and boolean literals, array literals, object literals
(ordered key/value fields), function expressions and conditional
expressions.  `config.js` uses only the first and the two literal
aggregates; the remaining constructors exist so that "the configuration
holds no function and no executable logic" is a real check on the tree. -/
inductive JSValue where
  | str : String → JSValue
  | num : Int → JSValue
  | bool : Bool → JSValue
  | arr : List JSValue → JSValue
  | obj : List (String × JSValue) → JSValue
  | func : List String → JSValue → JSValue
  | cond : JSValue → JSValue → JSValue → JSValue

mutual

/-- `true` when the value contains a function expression or a conditional
expression anywhere in its tree, i.e. when it carries any executable
logic rather than plain data. -/
def JSValue.containsExec : JSValue → Bool
  | .str _ => false
  | .num _ => false
  | .bool _ => false
  | .func _ _ => true
  | .cond _ _ _ => true
  | .arr vs => JSValue.containsExecList vs
  | .obj fs => JSValue.containsExecFields fs

/-- `containsExec` over the elements of an array literal. -/
def JSValue.containsExecList : List JSValue → Bool
  | [] => false
  | v :: vs => v.containsExec || JSValue.containsExecList vs

/-- `containsExec` over the fields of an object literal. -/
def JSValue.containsExecFields : List (String × JSValue) → Bool
  | [] => false
  | f :: fs => f.2.containsExec || JSValue.containsExecFields fs

end

/-- The keys of an object literal, in source order; `none` when the value
is not an object. -/
def JSValue.objKeys : JSValue → Option (List String)
  | .obj fs => some (fs.map (·.1))
  | _ => none

/-- Look a field up in an object literal by key (first occurrence). -/
def JSValue.getField : JSValue → String → Option JSValue
  | .obj fs, k => (fs.find? (fun f => f.1 == k)).map (·.2)
  | _, _ => none

/-- `true` exactly for string literals. -/
def JSValue.isStr : JSValue → Bool
  | .str _ => true
  | _ => false

/-- `true` exactly for object literals. -/
def JSValue.isObj : JSValue → Bool
  | .obj _ => true
  | _ => false

/-- A navigation entry as the VuePress theme expects it: an object literal
whose fields are exactly a string `text` and a string `link`, in that
order, as each entry of `nav` in `config.js` is written. -/
def JSValue.isNavEntryShape : JSValue → Bool
  | .obj [("text", .str _), ("link", .str _)] => true
  | _ => false

/-- The object literal exported by `src/.vuepress/config.js`
(`module.exports = { ... }`), transcribed field by field. -/
def configValue : JSValue :=
  .obj [
    ("title", .str "Astro Forms"),
    ("description", .str "An approachable iOS forms framework for building beautiful, reusable and easy to maintain forms."),
    ("themeConfig", .obj [
      ("nav", .arr [
        .obj [("text", .str "Home"), ("link", .str "/")],
        .obj [("text", .str "Docs"), ("link", .str "/docs")],
        .obj [("text", .str "Github"), ("link", .str "https://github.com/plummer/astro-forms")],
        .obj [("text", .str "Example Project"), ("link", .str "https://github.com/plummer/astro-forms/tree/master/Example")]]),
      ("sidebar", .str "auto")])]

/-- The `(text, link)` pairs of the `nav` array of `config.js`, extracted
from `configValue`; an entry not of the `{text, link}` shape is skipped. -/
def navPairs : List (String × String) :=
  match configValue.getField "themeConfig" with
  | some tc =>
    match tc.getField "nav" with
    | some (.arr es) =>
      es.filterMap fun e =>
        match e with
        | .obj [("text", .str t), ("link", .str l)] => some (t, l)
        | _ => none
    | _ => []
  | none => []


/-- The lines of README.md at the repository root (development, deployment and testing instructions). -/
def rootReadmeLines : List String := [
  "[![Astro Forms: Documentation](https://github.com/plummer/astro-docs/blob/master/assets/readme-header.jpg)](www.astroforms.com)",
  "",
  "The documentation for Astro Forms, an iOS forms framework. Uses Vuepress docs.",
  "",
  "## Development",
  "1.  Ensure vuepress is set up correctly (<https://vuepress.vuejs.org/>)",
  "2.  Run `vuepress dev src` to run the local server.",
  "",
  "## Deployment",
  "1.  Ensure vuepress is set up correctly (<https://vuepress.vuejs.org/>)",
  "2.  Run `vuepress build src` to build a static site",
  "3.  Commit any changes",
  "4.  Run `sh deploy.sh` to publish the static site.",
  "",
  "## Testing",
  "1.  You can use any static server to test the built site locally",
  "2.  For example using a node based server, run `npm install http-server -g`",
  "3.\tThen run `http-server src/.vuepress/dist`."
]

/-- The lines of src/README.md, the home page of the VuePress site (frontmatter plus a short body). -/
def homeLines : List String := [
  "---",
  "home: true",
  "heroImage: https://user-images.githubusercontent.com/580919/46216945-07dfb180-c384-11e8-88bf-f95d87cdf720.jpg",
  "actionText: Documentation →",
  "actionLink: /docs.html",
  "features:",
  "- title: Lightweight",
  "  details: Build forms by composing protocols to keep things simple and lightweight - each form and row include just the features they need.",
  "- title: Validation, theming, keyboard focus",
  "  details: Astro Forms focuses on painful parts of form managment, So you can focus on building fantastic UIViews.",
  "- title: Type-Safe to use and extend",
  "  details: No magic strings for row access or data retrieval required - build with Swift\x27s type system end to end and ship less code with confidence.",
  "footer: MIT Licensed | Copyright © 2018-present Andrew Plummer",
  "---",
  "",
  "## Getting Started",
  "",
  "Want to dive right in?",
  "",
  "```ruby",
  "pod install \x27AstroForms\x27",
  "```"
]

/-- The lines of src/docs.md, the documentation page of the VuePress site. -/
def docsLines : List String := [
  "# Documentation",
  "",
  "## Form",
  "",
  "A `Form` in Astro Forms maintains a collection of rows, responds to row changes, and validates rows.",
  "",
  "### Creating a Form",
  "",
  "To create a form, simply subclass `Form`.",
  "",
  "```swift",
  "import AstroForms",
  "",
  "class LoginForm: Form \x7b",
  "\t// ...",
  "\x7d",
  "```",
  "",
  "As `Form` is a subclass of `UIView`, just add the class in Interface Builder to add it to your `UIViewController`.",
  "",
  "### Adding a Row",
  "",
  "Forms have `add(_:)` and `insert(_: at:)` instance methods for adding rows to a form.",
  "",
  "```swift",
  "public func add(_ row: AnyRow)",
  "```",
  "",
  "```swift",
  "public func insert(_ row: AnyRow, at index: Int)",
  "```",
  "",
  "To add a row, simply call the add/insert method at any point, for example:",
  "",
  "```swift",
  "import AstroForms",
  "",
  "class LoginForm: Form \x7b",
  "\t",
  "\tenum LoginFormTag: RowTag, Equatable \x7b",
  "\t\tcase fullName",
  "\t\x7d",
  "",
  "\toverride func awakeFromNib() \x7b",
  "\t\tsuper.awakeFromNib()",
  "",
  "\t\tlet fullNameRow = TextFieldRow(tag: LoginFormTag.fullName) \x7b",
  "            $0.view.label.text = \"Full Name\"",
  "            $0.view.textField.placeholder = \"Enter your name...\"",
  "        \x7d",
  "",
  "        // Adding the row here",
  "        add(fullNameRow)",
  "",
  "\t\x7d",
  "",
  "\x7d",
  "```",
  "",
  "Once added, these rows are available via the `rows` property, an instance variable of type `[AnyRow]`.",
  "",
  "### Row Tags in Forms",
  "",
  "In the above example, you\x27ll notice when creating `fullNameRow` we used a `LoginFormTag` enumerated type defined in `LoginForm`. ",
  "",
  "Tags are an important concept in Astro Forms:",
  "- Tags provide a unique ID for every `Row`",
  "- Tags can be dynamic using associated values",
  "- Every `Row` must have a tag",
  "- Every `Form` has an enum that declares it\x27s set of row tags.",
  "",
  "Create tags by implementing `RowTag` and `Equatable`. For example a set of tags might be:",
  "",
  "```swift",
  "enum LoginFormTag: RowTag, Equatable \x7b",
  "\tcase email, password, submit",
  "\x7d",
  "```",
  "",
  "A `Form`\x27s row tags type must implement `Equatable` so they can be compared with each other.",
  "",
  "### Finding a Row",
  "",
  "Because every row has a tag you can access them later with the `findRow(tag:)` instance method:",
  "",
  "```swift",
  "let fullNameRow: TextFieldRow? = self.findRow(tag: LoginFormTag.fullName)",
  "```",
  "",
  "If rows are rendered dynamically, associated types provide a convenient way to declare tags for rows that may be generated base on conditions.",
  "",
  "```swift",
  "enum LoginFormTag: RowTag, Equatable \x7b",
  "\tcase dynamicTag(String)",
  "\x7d",
  "",
  "// Later, inside an instance method:",
  "",
  "for i in 1...4 \x7b",
  "\tadd(TextFieldRow(tag: LoginFormTag.dynamicTag(\"address-line-\\(i)\")))",
  "\x7d",
  "",
  "let foundRow: TextFieldRow? = self.findRow(",
  "\ttag: LoginFormTag.dynamicTag(\"address-line-4\")",
  ")",
  "```",
  "",
  "::: tip",
  "Only use dynamic row tags when absolutely required to avoid runtime errors from mistyped strings.",
  ":::",
  "",
  "### Removing a Row",
  "",
  "A Form contains an remove function that will remove a row, and any associated views from the `Form`.",
  "",
  "```swift",
  "public func remove(at index: Int) ",
  "```",
  "",
  "### Responding to Row Changes",
  "",
  "A `Form` receives all Row updates in a overrideable method:",
  "```swift",
  "func rowUpdate(type: RowUpdate, row: AnyRow)",
  "```",
  "There are several RowUpdate types, that map to common validation requirements, however can be used for any arbitrary form update (for example show/hide). ",
  "",
  "These are:",
  "",
  "- **live**",
  "\t`rowUpdate` called every time the row is changed",
  "- **onResignActive**",
  "\t`rowUpdate` called every time the row is blurred",
  "- **onResignActiveAfterChange**",
  "\t`rowUpdate` called on blur after the row has changed at least once",
  "- **regular**",
  "\t`rowUpdate` called every time the row is changed after the row has been blurred at least once, and every time it is blurred",
  "",
  "",
  "By example, to update the disabled state of a row that contains a button on every row change (ButtonRow):",
  "",
  "```swift",
  "override func rowUpdate(type: RowUpdate, row: AnyRow) \x7b",
  "",
  "    guard let tag = row.tag as? LoginFormTag else \x7b return \x7d",
  "    ",
  "    switch type \x7b",
  "        case .live:",
  "            ",
  "            // When any row is updated, update button row validity",
  "            guard let buttonRow: ButtonRow = findRow(",
  "                tag: LoginFormTag.submit",
  "            ) else \x7b",
  "                return",
  "            \x7d",
  "            ",
  "            updateButtonEnabledStateUI(row: buttonRow)",
  "        ",
  "        default: break",
  "    \x7d",
  "    ",
  "\x7d",
  "```",
  "",
  "## Row",
  "",
  "A Row in Astro Forms is a class that manages any `UIView` that is inside a `Form`. This is commonly a view with an input like a `UITextField`, but it also might just be a view with your company logo, some images, a map - anything.",
  "",
  "### Creating a Row",
  "",
  "To be added to a `Form` a `Row` only needs implement the `Row` protocol. The requirements for this protocol are:",
  "- To define a `UIView` type associated with the `Row` ",
  "- Add an property to refer to the `UIView` for this row",
  "- Add a `tag` property to store this row\x27s `RowTag` ",
  "",
  "Here\x27s an example for a row that shows a company logo:",
  "```swift",
  "class CompanyLogoRow: Row \x7b",
  "",
  "\t// Define the view type",
  "\tassociatedtype View = CompanyLogoView",
  "",
  "\t// The `UIView instance the user will see",
  "\tvar view: View",
  "",
  "\t// Every Row must have a RowTag",
  "\tvar tag: RowTag",
  "",
  "\tinit(tag: RowTag, config: ((CompanyLogoRow) -> Void)? = nil) \x7b",
  "\t\tlet view: View = View.fromXib()",
  "\t\tself.view = view",
  "\t\tself.tag = tag",
  "\t\tconfig?(self)",
  "\t\x7d",
  "",
  "\x7d",
  "```",
  "",
  "In this example:",
  "- The `CompanyLogoRow` includes a view, tag, and a basic initialization method",
  "- A `CompanyLogoView` (defined somewhere else), is just a UIView",
  "- A Xib for the `CompanyLogoView` ",
  "",
  "That\x27s it, this row is ready to be added to a `Form` with the `add(_:)` instance method.",
  "",
  "",
  "### Value Rows",
  "",
  "A row can have a value of any type, simply by implementing the `ValueRow` protocol. This protocol contains a `value` instance property for getting and setting the value from the underlying `UIView`. In the below example this is a Boolean based on a `UISwitch` state, for a `UITextField` based row, it would get and set the String `text` property on the field. ",
  "",
  "This protocol also contains some instance properties and methods (with default implementations) for delegating view updates to the `Form`.",
  "",
  "By example, a SwitchRow (containing a `UISwitch`) with a value:",
  "",
  "```swift",
  "import UIKit",
  "import AstroForms",
  "",
  "class SwitchRow: Row, ValueRow \x7b",
  "",
  "\t// ValueRow protocol requirements",
  "",
  "\ttypealias Value = Bool",
  "    ",
  "    var valueHasStartedEditing: Bool = false",
  "    ",
  "    var valueHasChanged: Bool = false",
  "    ",
  "    var valueHasEndedEditing: Bool = false",
  "    ",
  "    var value: Value \x7b",
  "        ",
  "        get \x7b return view.switch.isOn \x7d",
  "        ",
  "        set \x7b view.switch.setOn(newValue, animated: false) \x7d",
  "        ",
  "    \x7d",
  "",
  "    // Row protocol requirements",
  "",
  "    var tag: RowTag",
  "",
  "    var view: SwitchRowView",
  "    ",
  "    init(tag: RowTag, config: ((SwitchRow) -> Void)? = nil) \x7b",
  "    \t...",
  "    \x7d",
  "    ",
  "\x7d",
  "```",
  "",
  "In implementing `ValueRow` for this `SwitchRow`:",
  "",
  "1. First, we set the Value typealias to a Bool (for when the switch is on or off)",
  "",
  "2. Next, we create a virtual property that gets / sets the switch value, defined in the `SwitchRowView`",
  "",
  "3. Finally, there are three variables `valueHasStartedEditing`, `valueHasChanged`, `valueHasEndedEditing`. These are to manage the validation state for this row. To satisfy the protocol, just assign these default values of `false`.",
  "",
  "Now, in the `Form`, we have access to the row, with a Bool value:",
  "",
  "```swift",
  "// Inside the Form subclass",
  "let row: SwitchRow? = findRow(tag: MyFormTag.mySwitchRow)",
  "",
  "let value: Bool? = row?.value",
  "```",
  "",
  "### Responding to View Changes",
  "",
  "When the value of a `ValueRow` changes, the `ValueRow` automatically passes this change information up to a `Form`. This update is then available in the Form\x27s `rowUpdate(type: RowUpdate, row: AnyRow) `. ",
  "",
  "However, given a Row\x27s view can be any `UIView` implementation, these changes could take many shapes. For example, a `UISwitch` notifies a `UIView` of updates using the target-action pattern for`UIControl.Event.valueChanged`, however a UITextField uses a combination of delegate methods and the target-action pattern for `UIControl.Event.editingChanged`.",
  "",
  "For this reason, a `ValueRow` normalizes all changes through several instance methods to call from your view.",
  "",
  "```swift",
  "// The value of the view has changed",
  "func valueDidEdit()",
  "",
  "// The use has started editing the view, relevant for UITextField etc...",
  "func valueDidStartEditing()",
  "",
  "// The user is done editing. This is the correct method for views that have ",
  "// instantly changing values too - like a `UISwitch` or `UIButton`",
  "func valueDidEndEditing()",
  "",
  "```",
  "",
  "Call these on a row from the row\x27s UIView implementation, for example:",
  "",
  "```swift",
  "class SwitchRowView: UIView \x7b",
  "    ",
  "    @IBOutlet weak var `switch`: UISwitch!",
  "    ",
  "    @IBOutlet weak var label: UILabel!",
  "    ",
  "    // Store a weak reference to a row so you can call methods on it. ",
  "    // This can be assigned during Row initialization.",
  "    weak var row: SwitchRow?",
  "    ",
  "    override func awakeFromNib() \x7b",
  "        super.awakeFromNib()",
  "        ",
  "        `switch`.addTarget(",
  "            self,",
  "            action: #selector(switchValueChanged(_:)),",
  "            for: .valueChanged",
  "        )",
  "        ",
  "    \x7d",
  "    ",
  "    @objc func switchValueChanged(_ sender: UISwitch) \x7b",
  "    \t// Call the row\x27s valueDidEndEditing() method, ",
  "    \t// so it can pass this event up for validation etc.",
  "        row?.valueDidEndEditing()",
  "    \x7d",
  "    ",
  "\x7d",
  "```",
  "",
  "### Focusable Rows",
  "",
  " Astro Forms exposes a `FocusableRow` protocol to:",
  " - Enable switching between focusable rows (like text inputs) with next/previous buttons",
  " - Allow rows to define custom a `focusRect`. A focusRect is the `CGRect` that you want form\x27s `UIScrollView` to ensure is visible on screen when an input is focused. This is useful for ensuring for example, both email and password are visible above the keyboard when the email field is focused. No more hunting behind the keyboard for fields.",
  "",
  " To implement this protocol:",
  "",
  " 1. Use a block to return the `UIResponder` that should be focused when a `Row` is asked to take focus - for example when the \"Next\" button on the keyboard is tapped on the previous `Row`.",
  "",
  "```swift",
  " class TextFieldRow: Row, ValueRow, FocusableRow \x7b",
  " \t// ...",
  "    var focusElement: UIResponder \x7b return view.textField \x7d",
  "    // ...",
  "\x7d",
  "```",
  "",
  "2. Provide a default implementation for focusRect to satisfy the protocol. If this is nil, the `Form` will focus the `CGRect` for the whole `Row`. It\x27s almost always best to set this to nil, and provide custom focusRect\x27s when adding rows (so you can reference other rows etc).",
  "",
  "```swift",
  "var focusRect: () -> CGRect? = \x7b return nil \x7d",
  "```",
  "",
  "Later when adding rows in your Form, override this block:",
  "",
  "```swift",
  "emailRow.focusRect = \x7b",
  "    CGRect(",
  "        x: emailRow.baseView.frame.origin.x,",
  "        y: emailRow.baseView.frame.origin.y,",
  "        width: emailRow.baseView.frame.width,",
  "        height: emailRow.baseView.frame.height + passwordRow.baseView.frame.height",
  "    )",
  "\x7d",
  "```",
  "",
  "Now when the email row `UITextField` is the `firstResponder`, both the emailRow and passwordRow will be visible above the keyboard.",
  "",
  "### Helpers",
  "",
  "A Helper is a reusable `UIView` that a Row manages that appears after the Row\x27s `UIView` in a `UIStackView`. A clear use case for a Helper is error message views that need to show and hide on validation errors. The interface between a `Row` and a helper is the ability to show and hide the helper.",
  "",
  "This is done through two methods:",
  "",
  "```swift",
  "func showHelper<T: UIView>(",
  "\tviewType: T.Type, ",
  "\tanimated: Bool, ",
  "\tconfig: ((T) -> Void)?",
  ")",
  "",
  "func hideHelper(",
  "\tanimated: Bool = false, ",
  "\tcallback: (() -> Void)? = nil",
  ")",
  "```",
  "",
  "By example, showing an error using the example helper `ErrorView` is as simple as calling the show method, and configuring the view:",
  "",
  "```swift",
  "guard validate(row: row, ValidationRule.required) else \x7b",
  "    row.showHelper(viewType: ErrorView.self, animated: true) \x7b errorView in",
  "        errorView.label.text = \"This field is required\"",
  "    \x7d",
  "    return",
  "\x7d",
  "```",
  "",
  "The only unusual thing here is the use of the class type instead of an existing instance as a parameter when showing a helper. This is to avoid the need to store instances of helper views - Astro Forms will manage replacing the view if necessary, or reusing the existing view if it is of the same type.",
  "",
  "## Validation",
  "",
  "Validation is handled by several instance methods available on `Form`, and does not enforce any particular architecture. ",
  "",
  "However, as in the example project, the logical place is to handle validation in methods called from `func rowUpdate(type: RowUpdate, row: AnyRow)` on the form.",
  "",
  "### Validation Methods",
  "",
  "There are several validation methods available on a form for validating input, with method signatures all beginning `validate`.",
  "",
  "### Basic Validation",
  "",
  "The simplest kind of validation takes a variadic parameter of blocks that return boolean values. If all the blocks return true, then the result is true. Each block is passed the row value as it\x27s parameter.",
  "",
  "```swift",
  "   func validate<R: ValueRow>(",
  "        row: R,",
  "        _ rules: ValidationRuleBlock<R>...) -> Bool",
  "```",
  "",
  "By example, consider a `StringRow` with a value of string:",
  "",
  "```swift",
  "let isValid: Bool = form.validate(",
  "    row: stringRow,",
  "    \x7b $0 == \"astro\" \x7d, // $0 is the value of the stringRow",
  "    \x7b $0.count == 5 \x7d  // typed to String based on the Row\x27s Value associatedtype",
  ")",
  "```",
  "Here, two blocks are passed in, one comparing the `StringRow` value to \"astro\", and another counting the characters.",
  "",
  "### Validation Messages",
  "",
  "If there are multiple rules being used in a chain, it can be helpful to use a tuple with messages, so rather than just know the chain failed overall, you also have a message for the specific rule that failed.",
  "",
  "```swift",
  "func validate<R: ValueRow>(",
  "        row: R,",
  "        _ rules: ValidationRuleMsgBlock<R>...) -> (Bool, String?)",
  "```",
  "",
  "By example, the following will return `(false, \"The character count must be correct\")`, for the input string \"astro\":",
  "",
  "```swift ",
  "let isValid = form.validate(",
  "    row: stringRow,",
  "    (\x7b $0 == \"astro\" \x7d, \"The string should equal astro\"),",
  "    (\x7b $0.count == 10 \x7d, \"The character count must be correct\")",
  ")",
  "```",
  "",
  "### Validation List",
  "",
  "In some situations, you may want to return a full list of messages and true / false for those that pass or fail. A common use case for the structure is a password field with many rules, and you want to show the user which ones they have successfully filled, and those they have yet to pass.",
  "",
  "```swift",
  "    func validateList<R: ValueRow>(",
  "        row: R,",
  "        _ rules: ValidationRuleMsgBlock<R>...) -> [(Bool, String?)]",
  "```",
  "",
  "By example, with a password list:",
  "",
  "```swift",
  "",
  "// Where stringRow.value == \"astroforms\"",
  "",
  "let passwordValidityList = form.validateList(",
  "    row: stringRow,",
  "    (\x7b$0 == \"*\" \x7d, \"The password should contain a *.\"),",
  "    (\x7b$0.count > 6\x7d, \"The password should have more than 6 characters.\"),",
  "    (\x7b$0.count < 30\x7d, \"The password should have less than 30 characters.\")",
  ")",
  "",
  "// Returns:",
  "// [(false, \"The password should contain a *.\"),",
  "// (true, \"The password should have more than 6 characters.\"),",
  "// (true, \"The password should have less than 30 characters.\")]",
  "",
  "```",
  "",
  "### Named Validation Rules",
  "",
  "Inline blocks are convenient however not very reusable. Astro Forms contains a factory of `ValidationRule` methods, these can be mixed with inline blocks. This can be extended with your own methods via an extension.",
  "",
  "```swift",
  "let isValid: Bool = validate(",
  "\trow: stringRow,",
  "\t\x7b $0.count > 0 \x7d,",
  "\tValidationRule.isEmail",
  ")",
  "```",
  "",
  "## Theming",
  "",
  "You can create themes in a type safe way easily in Astro Forms for any kind of property. Themes are defined on a form and inherited by views automatically, although any given instance of a row can override the theme to allow multiple themes to be used in the same form.",
  "",
  "Theming in Astro Forms can be used independently of forms too, you can apply the `Themeable` protocol you create to any `UIView`, simply by implementing the `theme` instance property and updating themes when you set it. If the given `UIView` is in a subview of any `Form`, it won\x27t inherit a theme automatically so you will need to define it on each `UIView`. ",
  "",
  "Here an example `UIImageView` subclass that implements a different backgroundImage per theme in the Astro Forms example project:",
  "",
  "```swift",
  "class ThemeableImageView: UIImageView, Themeable \x7b",
  "    ",
  "    var theme: AstroTheme? \x7b",
  "        didSet \x7b updateTheme() \x7d",
  "    \x7d",
  "    ",
  "    func updateTheme() \x7b self.image = image(.formBackground) \x7d",
  "    ",
  "\x7d",
  "```",
  "",
  "### Creating a Theme",
  "",
  "To create a theme, you need to create your own `Themeable` protocol, composed of various theming protocols that define themable behaviour (color, size) and also those that define how to apply the theme to your `UIView` subclasses (`Form` or `Row` views). These are constrained to concrete enumerated types implementing:",
  "- The number and names of the different themes in your project (for example: light, dark etc.)",
  "- The properties that should be applied within the themes (primaryColor, smallMarginSize etc.)",
  "",
  "This then exposes easy to use methods with a convenience syntax in any UIView that inherits your new protocol.",
  "",
  "#### Included Themable Protocols",
  "",
  "The color function is exposed by `ThemeableColorTraits`:",
  "```swift",
  "func color(_ requirement: ThemeColorType) -> UIColor",
  "```",
  "",
  "An example usage is: `textView.tintColor = color(.primaryTint)`,",
  "",
  "The image function is exposed by `ThemeableImageTraits`:",
  "```swift",
  "func image(_ requirement: ThemeImageType) -> UIImage",
  "```",
  "",
  "An example usage is: `imageView.image = image(.formBackground)`.",
  "",
  "In both these cases, a color and image will be returned for the currently active theme.",
  ""
]

/-- The content of a repository file: a markdown document (its lines), the
JS configuration (its exported value), or a shell script.  A markdown
document is static text; the only JS file of the repository is the
configuration literal. -/
inductive FileContent where
  | markdown : List String → FileContent
  | jsConfig : JSValue → FileContent
  | shellScript : FileContent

/-- `true` exactly for markdown documents. -/
def FileContent.isMarkdown : FileContent → Bool
  | .markdown _ => true
  | _ => false

/-- `true` exactly for shell scripts. -/
def FileContent.isShellScript : FileContent → Bool
  | .shellScript => true
  | _ => false

/-- Whether a file carries any executable logic, hence any code path at
all: markdown is static text (rendered, never executed), the
configuration carries logic exactly when its value tree contains a
function or conditional expression, and a shell script is executable. -/
def FileContent.hasExecutableLogic : FileContent → Bool
  | .markdown _ => false
  | .jsConfig v => v.containsExec
  | .shellScript => true

/-- A file of the repository: its path from the repository root and its
content. -/
structure RepoFile where
  path : String
  content : FileContent

/-- The four files of the repository source tree: the root README, the
home page, the docs page and the site configuration. -/
def sourceFiles : List RepoFile := [
  ⟨"README.md", .markdown rootReadmeLines⟩,
  ⟨"src/README.md", .markdown homeLines⟩,
  ⟨"src/docs.md", .markdown docsLines⟩,
  ⟨"src/.vuepress/config.js", .jsConfig configValue⟩]

/-- Modelled from the spec: the deploy script `deploy.sh`, the component
the spec lists as "a deploy script invoking an external static-site
build/publish pipeline".  The script itself is not among the source
files given here — only its invocation, step 4 of the root README's
Deployment section (`sh deploy.sh`) — so it is modelled as a shell-script
member of the repository with no further structure. -/
def deployScriptFile : RepoFile := ⟨"deploy.sh", .shellScript⟩

/-- The files making up the repository: the four source files together
with the deploy script the README invokes. -/
def repoFiles : List RepoFile := sourceFiles ++ [deployScriptFile]

/-- Leading indentation (spaces and tabs) dropped from a line. -/
def dropIndent (l : List Char) : List Char :=
  l.dropWhile (fun c => c == ' ' || c == '\t')

/-- `true` when the line is a fenced-code-block delimiter: after optional
indentation it starts with three backticks. -/
def isFenceDelim (l : String) : Bool :=
  "```".toList.isPrefixOf (dropIndent l.toList)

/-- Swift declaration keywords: a markdown line that (after indentation)
opens with one of these is a line of code of the documented framework — a
class, protocol, enum, extension, function, property, type alias, import
or attribute, which is how every row class, validation method and theming
protocol in the documentation is introduced. -/
def swiftDeclKeywords : List String :=
  ["class ", "func ", "enum ", "protocol ", "struct ", "extension ",
   "import ", "override ", "var ", "let ", "init(", "typealias ",
   "associatedtype ", "@objc", "@IBOutlet"]

/-- `true` when the line opens (after indentation) with a Swift
declaration keyword, i.e. when it is a line of framework code. -/
def isSwiftCodeLine (l : String) : Bool :=
  swiftDeclKeywords.any (fun k => k.toList.isPrefixOf (dropIndent l.toList))

/-- Pair each line of a markdown document with `true` when the line
belongs to a fenced code sample (the delimiter lines included); the
Boolean argument is the running state "currently inside a fence". -/
def annotateFences : List String → Bool → List (String × Bool)
  | [], _ => []
  | l :: ls, inF =>
    if isFenceDelim l then (l, true) :: annotateFences ls (!inF)
    else (l, inF) :: annotateFences ls inF

/-- The frontmatter block of a markdown page: the lines strictly between
the opening `---` line and the next `---` line. -/
def frontmatterLines (ls : List String) : List String :=
  ((ls.dropWhile (fun l => l != "---")).drop 1).takeWhile (fun l => l != "---")

/-- Look a top-level frontmatter key up: the remainder of the first
frontmatter line that opens with `key ++ ": "`. -/
def fmLookup (ls : List String) (key : String) : Option String :=
  (frontmatterLines ls).findSome? fun l =>
    if (key ++ ": ").toList.isPrefixOf l.toList
    then some (String.mk (l.toList.drop (key.length + 2)))
    else none

/-- `true` when the link is site-root relative, i.e. opens with `/`. -/
def isInternalLink (link : String) : Bool :=
  "/".toList.isPrefixOf link.toList

/-- `true` when the link is an absolute URL opening with `https://`. -/
def isExternalLink (link : String) : Bool :=
  "https://".toList.isPrefixOf link.toList

/-- `true` for the paths of the site's markdown content pages: the
markdown files under the site source directory `src/`. -/
def isSitePagePath (p : String) : Bool :=
  "src/".toList.isPrefixOf p.toList && ".md".toList.isSuffixOf p.toList

/-- The paths of the site's markdown content pages among the source
files. -/
def sitePagePaths : List String :=
  (sourceFiles.filter (fun f => isSitePagePath f.path)).map (·.path)

/-- Modelled from the spec: VuePress's build output location.  `vuepress
build DIR` writes the static HTML into `DIR/.vuepress/dist`; the build
tool is external to the repository, so its output path is taken from the
spec's words "produce static HTML into `src/.vuepress/dist`". -/
def vuepressBuildOutputDir (dir : String) : String :=
  dir ++ "/.vuepress/dist"

/-- The directory served for local testing of the built site: the argument
of `http-server` in step 3 of the root README's Testing section. -/
def testServeDir : String := "src/.vuepress/dist"

/-- Modelled from the spec: VuePress's page resolution for a site-root
relative link.  The site is built from the `src` directory; `/` serves
that directory's `README.md` and any other internal link `/name` serves
`name.md` there.  The resolver is the external site generator's, so it is
modelled from the spec's words (internal links resolve to the site's
pages). -/
def resolveInternalLink (link : String) : String :=
  if link == "/" then "src/README.md" else "src" ++ link ++ ".md"

/-- Modelled from the spec: VuePress's output file name for a markdown
page.  `README.md` is rendered as `index.html`; any other `name.md` is
rendered as `name.html` (the `.md` suffix replaced by `.html`). -/
def renderedFileName (name : String) : String :=
  if name == "README.md" then "index.html"
  else String.mk (name.toList.take (name.length - 3) ++ ".html".toList)


/-- C1: `config.js` exports a single object literal whose content is
exactly a string title, a string description, and a `themeConfig` holding
exactly a `nav` array whose entries are each a `\x7btext, link\x7d` pair of
strings and a sidebar mode equal to the string `"auto"`; the tree
contains no function expression and no other executable logic. -/
theorem C1_config_is_pure_literal :
    configValue.isObj = true ∧
    configValue.objKeys = some ["title", "description", "themeConfig"] ∧
    (configValue.getField "title").map JSValue.isStr = some true ∧
    (configValue.getField "description").map JSValue.isStr = some true ∧
    (configValue.getField "themeConfig").bind JSValue.objKeys = some ["nav", "sidebar"] ∧
    (configValue.getField "themeConfig").bind (fun tc => tc.getField "sidebar") =
      some (.str "auto") ∧
    (match (configValue.getField "themeConfig").bind (fun tc => tc.getField "nav") with
      | some (.arr es) => es.all JSValue.isNavEntryShape
      | _ => false) = true ∧
    configValue.containsExec = false :=
  ⟨rfl, rfl, rfl, rfl, rfl, rfl, rfl, rfl⟩

/-- C2: the set of files making up the repository includes the shell
deploy script `deploy.sh` — published by running `sh deploy.sh`, step 4 of
the root README's Deployment section — as a member alongside the markdown
pages and the site configuration. -/
theorem C2_deploy_script_present :
    (∃ f, f ∈ repoFiles ∧ f.path = "deploy.sh" ∧ f.content.isShellScript = true) ∧
    (∃ f, f ∈ repoFiles ∧ f.path = "src/README.md" ∧ f.content.isMarkdown = true) ∧
    (∃ f, f ∈ repoFiles ∧ f.path = "src/docs.md" ∧ f.content.isMarkdown = true) ∧
    (∃ f, f ∈ repoFiles ∧ f.path = "src/.vuepress/config.js" ∧
      f.content.isMarkdown = false ∧ f.content.isShellScript = false) ∧
    "4.  Run `sh deploy.sh` to publish the static site." ∈ rootReadmeLines :=
  ⟨⟨deployScriptFile, .tail _ (.tail _ (.tail _ (.tail _ (.head _)))), rfl, rfl⟩,
   ⟨⟨"src/README.md", .markdown homeLines⟩, .tail _ (.head _), rfl, rfl⟩,
   ⟨⟨"src/docs.md", .markdown docsLines⟩, .tail _ (.tail _ (.head _)), rfl, rfl⟩,
   ⟨⟨"src/.vuepress/config.js", .jsConfig configValue⟩,
     .tail _ (.tail _ (.tail _ (.head _))), rfl, rfl, rfl⟩,
   by decide⟩

/-- C3: every internal navigation link of the configuration (every nav
entry whose link opens with `/`) resolves to an existing markdown page of
the source tree: `/` resolves to the home page `src/README.md` and
`/docs` to the docs page `src/docs.md`. -/
theorem C3_internal_nav_links_resolve :
    (∀ e ∈ navPairs, isInternalLink e.2 = true →
      resolveInternalLink e.2 ∈ sitePagePaths) ∧
    resolveInternalLink "/" = "src/README.md" ∧
    resolveInternalLink "/docs" = "src/docs.md" :=
  ⟨by decide, by decide, by decide⟩

/-- Witness for C3 at the nav entry `("Docs", "/docs")`. -/
theorem C3_internal_nav_links_resolve_witness :
    ("Docs", "/docs") ∈ navPairs ∧ isInternalLink "/docs" = true ∧
    resolveInternalLink "/docs" ∈ sitePagePaths :=
  ⟨by decide, by decide,
   C3_internal_nav_links_resolve.1 ("Docs", "/docs") (by decide) (by decide)⟩

/-- C4: no implementation source is present in any file of the source
tree: no file carries executable logic (the only non-markdown source, the
configuration, is a pure data literal — so no row class, validation
engine, theming engine or view-layout logic exists as code here), and in
every markdown file every line of framework code (a line opening with a
Swift declaration keyword) lies inside a fenced illustrative code
sample. -/
theorem C4_no_implementation_source :
    (∀ f ∈ sourceFiles, f.content.hasExecutableLogic = false) ∧
    (∀ p ∈ annotateFences docsLines false, isSwiftCodeLine p.1 = true → p.2 = true) ∧
    (∀ p ∈ annotateFences homeLines false, isSwiftCodeLine p.1 = true → p.2 = true) ∧
    (∀ p ∈ annotateFences rootReadmeLines false, isSwiftCodeLine p.1 = true → p.2 = true) :=
  ⟨by decide, by decide, by decide, by decide⟩

/-- Witness for C4 at the configuration file and at the docs line
`class LoginForm: Form \x7b`, the first row-class declaration of the
documentation (which lies inside a fence). -/
theorem C4_no_implementation_source_witness :
    (FileContent.jsConfig configValue).hasExecutableLogic = false ∧
    (("class LoginForm: Form \x7b", true) : String × Bool).2 = true :=
  ⟨C4_no_implementation_source.1 ⟨"src/.vuepress/config.js", .jsConfig configValue⟩
     (.tail _ (.tail _ (.tail _ (.head _)))),
   C4_no_implementation_source.2.1 ("class LoginForm: Form \x7b", true)
     (by decide) (by decide)⟩

/-- C5: the markdown content pages of the site are exactly two — the home
page `src/README.md` and the docs page `src/docs.md` — and each content
page is static markdown text with no runtime behavior. -/
theorem C5_exactly_two_content_pages :
    sitePagePaths = ["src/README.md", "src/docs.md"] ∧
    (∀ f ∈ sourceFiles, isSitePagePath f.path = true →
      f.content.isMarkdown = true ∧ f.content.hasExecutableLogic = false) :=
  ⟨by decide, by decide⟩

/-- Witness for C5 at the docs page. -/
theorem C5_exactly_two_content_pages_witness :
    isSitePagePath "src/docs.md" = true ∧
    (FileContent.markdown docsLines).isMarkdown = true ∧
    (FileContent.markdown docsLines).hasExecutableLogic = false :=
  ⟨by decide,
   C5_exactly_two_content_pages.2 ⟨"src/docs.md", .markdown docsLines⟩
     (.tail _ (.tail _ (.head _))) (by decide)⟩

/-- C6: the output directory of `vuepress build src` and the directory
served for local testing of the built site (the `http-server` argument in
the root README's Testing section) are the same directory,
`src/.vuepress/dist`. -/
theorem C6_build_output_equals_test_dir :
    vuepressBuildOutputDir "src" = testServeDir ∧
    "2.  Run `vuepress build src` to build a static site" ∈ rootReadmeLines ∧
    "3.\tThen run `http-server src/.vuepress/dist`." ∈ rootReadmeLines :=
  ⟨by decide, by decide, by decide⟩

/-- C7: no source file of the repository defines error-handling logic:
no file carries any executable code path at all (markdown is static text
and the configuration tree holds neither a function nor a conditional),
so no code path detects, reports or recovers from failures. -/
theorem C7_no_error_handling_logic :
    ∀ f ∈ sourceFiles, f.content.hasExecutableLogic = false := by decide

/-- Witness for C7 at the configuration file. -/
theorem C7_no_error_handling_logic_witness :
    (FileContent.jsConfig configValue).hasExecutableLogic = false :=
  C7_no_error_handling_logic ⟨"src/.vuepress/config.js", .jsConfig configValue⟩
    (.tail _ (.tail _ (.tail _ (.head _))))

/-- C8: the navigation entries are pairwise distinct: no two entries share
a text label and no two entries share a link target. -/
theorem C8_nav_entries_distinct :
    (navPairs.map Prod.fst).Nodup ∧ (navPairs.map Prod.snd).Nodup :=
  ⟨by decide, by decide⟩

/-- C9: every navigation link is either site-root relative (opens with
`/`) or an absolute URL opening with `https://`, and the external entries
are exactly the Github and the Example Project ones. -/
theorem C9_nav_link_shapes :
    (∀ e ∈ navPairs, isInternalLink e.2 = true ∨ isExternalLink e.2 = true) ∧
    navPairs.filter (fun e => isExternalLink e.2) =
      [("Github", "https://github.com/plummer/astro-forms"),
       ("Example Project", "https://github.com/plummer/astro-forms/tree/master/Example")] :=
  ⟨by decide, by decide⟩

/-- Witness for C9 at the Github entry. -/
theorem C9_nav_link_shapes_witness :
    isInternalLink "https://github.com/plummer/astro-forms" = true ∨
    isExternalLink "https://github.com/plummer/astro-forms" = true :=
  C9_nav_link_shapes.1 ("Github", "https://github.com/plummer/astro-forms") (by decide)

/-- C10: the home page's frontmatter declares `home: true`, its call to
action links to `/docs.html`, and that target is the built form of an
existing source page: `docs.md`, rendered as `docs.html`. -/
theorem C10_home_action_link_resolves :
    fmLookup homeLines "home" = some "true" ∧
    fmLookup homeLines "actionLink" = some "/docs.html" ∧
    "src/docs.md" ∈ sitePagePaths ∧
    "/" ++ renderedFileName "docs.md" = "/docs.html" :=
  ⟨by decide, by decide, by decide, by decide⟩
